import Mathlib

/-!
Verification of the ApiKeyAJM credential-provider library
(`src/ApiKeyAJM/ApiKeyAJM.py`) against its natural-language specification.

The Python module is embedded shallowly:

* `_BaseAPIKey.__init__` becomes `baseInit`, parameterized by the behavior of
  the subclass hooks `_prep_for_fetch` and `_fetch_api_key`.
* `APIKeyFromFile` becomes `fileInit` / `fileFetch` and friends; the
  filesystem is an oracle `fs : String → Option String` giving the contents of
  a path when it exists as a file, and `json.load` is an oracle
  `jp : String → Except Err Json`.
* `RemoteAPIKey` becomes `remoteInit` / `remoteFetch`; the network is an
  oracle `net : url → username → password → NetResult`; the third-party
  `validators.url` check is an abstract predicate `validator : String → Bool`.

Side effects that the spec talks about (file reads, HTTP posts, log lines)
are recorded in an explicit effect trace; exceptions are `Except Err`.
-/

set_option autoImplicit false

namespace ApiKeyAJM

/-- A JSON value, as produced by Python's `json.load` / `response.json()`.
Python's `None` is `Json.null`.  Objects carry their fields as an
association list (the claims never use duplicate keys). -/
inductive Json where
  | null : Json
  | bool : Bool → Json
  | num : Int → Json
  | str : String → Json
  | arr : List Json → Json
  | obj : List (String × Json) → Json

/-- Python truthiness (`if not self.api_key: ...`) for the values that can
reach `api_key`: `None`, strings, numbers, lists and dicts. -/
def Json.isTruthy : Json → Bool
  | .null => false
  | .bool b => b
  | .num n => !(n == 0)
  | .str s => !(s == "")
  | .arr l => !l.isEmpty
  | .obj l => !l.isEmpty

/-- Field lookup in a parsed JSON object, i.e. Python `d[k]` / `d.get(k)`
restricted to the object's field list. -/
def lookupField : List (String × Json) → String → Option Json
  | [], _ => none
  | (k, v) :: rest, key => if k = key then some v else lookupField rest key

/-- The Python exceptions the module can raise, with their message. -/
inductive Err where
  | notImplementedError : String → Err
  | fileNotFoundError : String → Err
  | attributeError : String → Err
  | typeError : String → Err
  | keyError : String → Err
  | ioError : String → Err
  | valueError : String → Err
  | validationError : String → Err
  | requestException : String → Err
  | connectionError : String → Err
deriving DecidableEq

/-- Observable side effects: file reads, HTTP POSTs, and log lines. -/
inductive Effect where
  | fileRead : String → Effect
  | httpPost : String → Effect
  | logInfo : String → Effect
  | logWarning : String → Effect
  | logError : String → Effect
deriving DecidableEq

/-- `str.strip()`: drop leading and trailing whitespace. -/
def pyStrip (s : String) : String :=
  String.mk (((s.toList.dropWhile Char.isWhitespace).reverse.dropWhile
      Char.isWhitespace).reverse)

/-- The final path component (`PurePath.name`): everything after the last
slash. -/
def nameChars (p : String) : List Char :=
  p.toList.foldl (fun acc c => if c = '/' then [] else acc ++ [c]) []

/-- Index of the last dot in a list of characters, if any. -/
def lastDotIdx (l : List Char) : Option Nat :=
  l.enum.foldl (fun acc x => if x.2 = '.' then some x.1 else acc) none

/-- `PurePath.suffix`: the last dot-suffix of the final component, when the
dot is neither the first nor the last character of that component;
otherwise the empty string. -/
def pathSuffix (p : String) : String :=
  let name := nameChars p
  match lastDotIdx name with
  | none => ""
  | some i => if 0 < i ∧ i + 1 < name.length then String.mk (name.drop i) else ""

/-- `Path(s)` normalization relevant here: `Path("")` is the path `"."`. -/
def pathOf (s : String) : String := if s = "" then "." else s

/-- `bool(Path(...))`: `Path` defines neither `__bool__` nor `__len__`, so a
path object is always truthy. -/
def pathTruthy : String → Bool := fun _ => true

/-- `Path(p).is_file()` over the filesystem oracle `fs`. -/
def isFile (fs : String → Option String) (p : String) : Bool := (fs p).isSome

/-- `_BaseAPIKey.__init__` (ApiKeyAJM.py lines 45-54), parameterized by the
class name (used in the final log line) and by the subclass's
`_prep_for_fetch` and `_fetch_api_key` behaviors.  If the supplied
`api_key` is truthy it is adopted as-is and neither hook is consulted;
otherwise prep runs, then fetch, and the fetch result (even `None`)
becomes the key. -/
def baseInit (cls : String) (api_key : Option Json)
    (prep : List Effect × Except Err Unit)
    (fetch : List Effect × Except Err Json) : List Effect × Except Err Json :=
  let k := api_key.getD .null
  if k.isTruthy then
    ([.logInfo (cls ++ " Initialization complete.")], .ok k)
  else
    match prep with
    | (es, .error e) => (es, .error e)
    | (es, .ok _) =>
      match fetch with
      | (es2, .error e) => (es ++ es2, .error e)
      | (es2, .ok v) => (es ++ es2 ++ [.logInfo (cls ++ " Initialization complete.")], .ok v)

/-- `APIKeyFromFile.VALID_FILE_MODES`. -/
def VALID_FILE_MODES : List String := ["text", "json"]

/-- `APIKeyFromFile.DEFAULT_FILE_MODE`. -/
def DEFAULT_FILE_MODE : String := "text"

/-- The `APIKeyFromFile.file_mode` property: returns `_file_mode` when it is
truthy and a member of `VALID_FILE_MODES`, and (implicitly) `None`
otherwise.  (Its non-fatal suffix-mismatch warning is not modelled; no
claim mentions it.) -/
def fileModeProp (m : String) : Option String :=
  if m ≠ "" ∧ m ∈ VALID_FILE_MODES then some m else none

/-- The file-mode resolution part of `APIKeyFromFile.__init__` (lines
131-142).  The suffix-derived assignments (`'json'` for `.json`,
`'text'` for `.txt`) are immediately overwritten by
`self._file_mode = kwargs.get('file_mode', self.DEFAULT_FILE_MODE)`,
so on those branches the effective mode is the kwarg or `"text"`.
On any other suffix the `else` branch runs
`self.logger.warning(...)` before the base initializer has assigned
`self.logger`, raising `AttributeError`. -/
def initFileMode (loc : String) (file_mode : Option String) : Except Err String :=
  if pathSuffix loc = ".json" ∨ pathSuffix loc = ".txt" then
    .ok (file_mode.getD DEFAULT_FILE_MODE)
  else
    .error (.attributeError "APIKeyFromFile object has no attribute logger")

/-- `APIKeyFromFile._ensure_key_location_is_set`: falls back to
`DEFAULT_KEY_LOCATION` only when `self.api_key_location` is falsy — which
never happens, since it is a `Path` object and therefore always truthy. -/
def ensureKeyLocationIsSet (api_key_location : String)
    (DEFAULT_KEY_LOCATION : Option String) : Except Err String :=
  if pathTruthy api_key_location = false then
    match DEFAULT_KEY_LOCATION with
    | none => .error (.attributeError
        "api_key_location or api_key were not provided and DEFAULT_KEY_LOCATION not set.")
    | some d => .ok d
  else
    .ok api_key_location

/-- `APIKeyFromFile._fetch_api_key` (lines 211-229).  Resolves the effective
path (a truthy, existing explicit `key_location` wins over the instance
location), raising logged `FileNotFoundError` when neither exists as a
file; then reads the file and dispatches on the `file_mode` property:
`text` strips the contents, `json` parses them (indexing by `_json_key`
when that is truthy), and an unrecognized mode falls off the end of the
`if`/`elif`, returning `None`. -/
def fileFetch (key_location : Option String) (api_key_location : String)
    (file_mode : String) (json_key : Option String)
    (fs : String → Option String) (jp : String → Except Err Json) :
    List Effect × Except Err Json :=
  let key_path? : Option String :=
    match key_location with
    | some kl =>
      if kl ≠ "" ∧ isFile fs kl = true then some kl
      else if pathTruthy api_key_location = true ∧ isFile fs api_key_location = true then
        some api_key_location
      else none
    | none =>
      if pathTruthy api_key_location = true ∧ isFile fs api_key_location = true then
        some api_key_location
      else none
  match key_path? with
  | none =>
    ([.logError "key file not found"], .error (.fileNotFoundError "key file not found"))
  | some key_path =>
    match fs key_path with
    | none => ([], .error (.ioError "read failed"))
    | some contents =>
      if fileModeProp file_mode = some "text" then
        ([.fileRead key_path], .ok (.str (pyStrip contents)))
      else if fileModeProp file_mode = some "json" then
        match jp contents with
        | .error e => ([.fileRead key_path], .error e)
        | .ok doc =>
          match json_key with
          | some jk =>
            if jk ≠ "" then
              match doc with
              | .obj fields =>
                match lookupField fields jk with
                | some v => ([.fileRead key_path], .ok v)
                | none => ([.fileRead key_path], .error (.keyError jk))
              | _ => ([.fileRead key_path], .error (.typeError
                  "document is not subscriptable by a string key"))
            else ([.fileRead key_path], .ok doc)
          | none => ([.fileRead key_path], .ok doc)
      else
        ([.fileRead key_path], .ok .null)

/-- The keyword-argument bag accepted by `APIKeyFromFile`. -/
structure FileKwargs where
  api_key : Option Json := none
  api_key_location : Option String := none
  file_mode : Option String := none
  json_key : Option String := none

/-- `APIKeyFromFile` construction: `APIKeyFromFile.__init__` followed by the
inlined `_BaseAPIKey.__init__`.  `Path(kwargs.get('api_key_location'))`
raises `TypeError` when the kwarg is absent (`Path(None)`); then the file
mode is resolved, and the base initializer runs with the location threaded
through `_ensure_key_location_is_set` (a state-mutating no-op). -/
def fileInit (DEFAULT_KEY_LOCATION : Option String) (kw : FileKwargs)
    (fs : String → Option String) (jp : String → Except Err Json) :
    List Effect × Except Err Json :=
  match kw.api_key_location with
  | none =>
    ([], .error (.typeError
      "argument should be a str or an os.PathLike object, not NoneType"))
  | some loc0 =>
    let loc := pathOf loc0
    match initFileMode loc kw.file_mode with
    | .error e => ([], .error e)
    | .ok file_mode =>
      let k := kw.api_key.getD .null
      if k.isTruthy then
        ([.logInfo "APIKeyFromFile Initialization complete."], .ok k)
      else
        match ensureKeyLocationIsSet loc DEFAULT_KEY_LOCATION with
        | .error e => ([], .error e)
        | .ok loc2 =>
          match fileFetch none loc2 file_mode kw.json_key fs jp with
          | (es, .error e) => (es, .error e)
          | (es, .ok v) =>
            (es ++ [.logInfo "APIKeyFromFile Initialization complete."], .ok v)

/-- An HTTP response: status flag (`response.ok`), raw body text
(`response.text`), and the outcome of `response.json()`. -/
structure HttpResponse where
  ok : Bool
  text : String
  body : Except Err Json

/-- Outcome of `requests.post`: a response, or a connection-level failure. -/
inductive NetResult where
  | response : HttpResponse → NetResult
  | connectionError : String → NetResult

/-- `RemoteAPIKey.validated_base_url`: a non-empty base URL failing the
`validators.url` check raises `ValidationError("Invalid URL")`; otherwise
`self._base_url or None` is returned (an empty base URL yields Python
`None`, which renders as the string `"None"` in the f-string that builds
the full URL). -/
def validatedBaseUrl (base_url : String) (validator : String → Bool) :
    Except Err String :=
  if base_url ≠ "" ∧ validator base_url = false then
    .error (.validationError "Invalid URL")
  else if base_url = "" then .ok "None"
  else .ok base_url

/-- `RemoteAPIKey._fetch_api_key(username, password)` (lines 328-352): POST
to the full URL; on `response.ok` return the parsed JSON body; otherwise
raise `RequestException(response.text)` (only `ConnectionError` is caught
and re-wrapped, so the `RequestException` propagates). -/
def remoteFetch (full_url username password : String)
    (net : String → String → String → NetResult) :
    List Effect × Except Err Json :=
  match net full_url username password with
  | .connectionError m => ([.httpPost full_url], .error (.connectionError m))
  | .response r =>
    if r.ok then
      match r.body with
      | .ok j => ([.httpPost full_url], .ok j)
      | .error e => ([.httpPost full_url], .error e)
    else
      ([.httpPost full_url], .error (.requestException r.text))

/-- The message of the `TypeError` Python raises when
`_BaseAPIKey.__init__` calls `self._fetch_api_key()` with no arguments on
a `RemoteAPIKey`, whose override requires `username` and `password`. -/
def missingArgsMsg : String :=
  "_fetch_api_key missing 2 required positional arguments: username and password"

/-- The base initializer's argument-less re-invocation of
`RemoteAPIKey._fetch_api_key`. -/
def remoteFetchMissingArgs : List Effect × Except Err Json :=
  ([], .error (.typeError missingArgsMsg))

/-- Username/password keyword arguments of `RemoteAPIKey`. -/
structure RemoteKwargs where
  username : Option String := none
  password : Option String := none

/-- `RemoteAPIKey.__init__` (lines 277-290) followed by the base
initializer: validate the base URL and build the full URL (before any
kwarg is read), fetch only when both username and password are truthy,
collapse a dict result to its `api_key` entry via `.get` (yielding `None`
when absent), then run `_BaseAPIKey.__init__` with that value. -/
def remoteInit (base_url create_key_endpoint : String) (kw : RemoteKwargs)
    (validator : String → Bool)
    (net : String → String → String → NetResult) :
    List Effect × Except Err Json :=
  match validatedBaseUrl base_url validator with
  | .error e => ([], .error e)
  | .ok vurl =>
    let full_url := vurl ++ "/" ++ create_key_endpoint
    let u := kw.username.getD ""
    let p := kw.password.getD ""
    match (if u = "" ∨ p = "" then (([], .ok .null) : List Effect × Except Err Json)
           else remoteFetch full_url u p net) with
    | (es, .error e) => (es, .error e)
    | (es, .ok k0) =>
      let k1 := match k0 with
        | .obj fields => (lookupField fields "api_key").getD .null
        | v => v
      let r := baseInit "RemoteAPIKey" (some k1) ([], .ok ()) remoteFetchMissingArgs
      (es ++ r.1, r.2)

/-! ### Concrete oracles used by witnesses and counterexamples -/

/-- A filesystem with no files at all. -/
def fsEmpty : String → Option String := fun _ => none

/-- A JSON parser oracle that rejects everything (never consulted where it
is used). -/
def jpNone : String → Except Err Json := fun _ => .error (.valueError "bad json")

/-- A filesystem holding one text file. -/
def fs4 : String → Option String :=
  fun p => if p = "key.txt" then some "topsecret" else none

/-- A filesystem holding one file whose raw contents are `" abc "`. -/
def fs6 : String → Option String :=
  fun p => if p = "key.json" then some " abc " else none

/-- A JSON parser oracle mapping `" abc "` to a two-field document. -/
def jp6 : String → Except Err Json :=
  fun s =>
    if s = " abc " then
      .ok (.obj [("api_key", .str "abc"), ("other", .num 1)])
    else .error (.valueError "bad json")

/-- A URL validator rejecting every string. -/
def valFalse : String → Bool := fun _ => false

/-- A URL validator accepting every string. -/
def valTrue : String → Bool := fun _ => true

/-- A network oracle refusing every connection. -/
def netRefuse : String → String → String → NetResult :=
  fun _ _ _ => .connectionError "refused"

/-- A network oracle answering HTTP 401 with body `"bad creds"`. -/
def net401 : String → String → String → NetResult :=
  fun _ _ _ => .response { ok := false, text := "bad creds", body := .error (.valueError "not json") }

/-- A network oracle answering HTTP 200 whose JSON body is the bare empty
string. -/
def netEmptyString : String → String → String → NetResult :=
  fun _ _ _ => .response { ok := true, text := "\"\"", body := .ok (.str "") }

/-- A network oracle answering HTTP 200 with a document holding an
`api_key` field and one extra field. -/
def netDoc : String → String → String → NetResult :=
  fun _ _ _ =>
    .response { ok := true, text := "resp",
                body := .ok (.obj [("api_key", .str "xyz"), ("ttl", .num 60)]) }

/-- A network oracle answering HTTP 200 with a document that has no
`api_key` field. -/
def netNoField : String → String → String → NetResult :=
  fun _ _ _ =>
    .response { ok := true, text := "resp", body := .ok (.obj [("token", .str "t")]) }

/-! ### Claim theorems -/

/-- C1: for every configuration in which a credential (`api_key`) is
supplied directly and is non-empty, the base initializer (the cited
`_BaseAPIKey.__init__`) adopts it as the resolved key unchanged, and
neither `_prep_for_fetch` nor `_fetch_api_key` is invoked: the result is
the same for every possible prep and fetch behavior, and the effect trace
holds only the completion log line — no file or network access. -/
theorem c1_direct_credential_short_circuit (s : String) (hs : s ≠ "") (cls : String)
    (prep : List Effect × Except Err Unit) (fetch : List Effect × Except Err Json) :
    baseInit cls (some (.str s)) prep fetch
      = ([.logInfo (cls ++ " Initialization complete.")], .ok (.str s)) := by
  have hb : (s == "") = false := beq_eq_false_iff_ne.mpr hs
  simp [baseInit, Json.isTruthy, hb]

/-- C1 witness: a concrete non-empty supplied key is adopted unchanged. -/
theorem c1_witness :
    baseInit "APIKeyFromFile" (some (.str "abc123")) ([], .ok ()) ([], .ok .null)
      = ([.logInfo "APIKeyFromFile Initialization complete."], .ok (.str "abc123")) :=
  c1_direct_credential_short_circuit "abc123" (by decide) "APIKeyFromFile"
    ([], .ok ()) ([], .ok .null)

/-- C2: whenever neither the explicit override location nor the configured
instance location exists as a file, `_fetch_api_key` logs and raises
`FileNotFoundError("key file not found")`: it never returns a null or
empty key silently. -/
theorem c2_not_found_raises (key_location : Option String) (loc fm : String)
    (jk : Option String) (fs : String → Option String) (jp : String → Except Err Json)
    (hover : ∀ kl, key_location = some kl → kl = "" ∨ fs kl = none)
    (hloc : fs loc = none) :
    fileFetch key_location loc fm jk fs jp
      = ([.logError "key file not found"], .error (.fileNotFoundError "key file not found")) := by
  cases key_location with
  | none => simp [fileFetch, isFile, hloc]
  | some kl =>
    rcases hover kl rfl with h | h
    · subst h
      simp [fileFetch, isFile, hloc]
    · simp [fileFetch, isFile, hloc, h]

/-- C2 witness: with an empty filesystem, both an override path and the
configured path are missing, and the fetch raises the logged error. -/
theorem c2_witness :
    fileFetch (some "override.txt") "key.txt" "text" none fsEmpty jpNone
      = ([.logError "key file not found"], .error (.fileNotFoundError "key file not found")) :=
  c2_not_found_raises (some "override.txt") "key.txt" "text" none fsEmpty jpNone
    (fun _ _ => Or.inr rfl) rfl

/-- C5: the claimed fallback never happens.  A file-provider construction
with no `api_key_location` kwarg raises `TypeError` inside
`Path(kwargs.get('api_key_location'))` — i.e. `Path(None)` — before
`_prep_for_fetch` can run, for every class-level `DEFAULT_KEY_LOCATION`
(set or not), every supplied credential, and every other kwarg; the
`AttributeError` fallback path of `_ensure_key_location_is_set` is
unreachable. -/
theorem c5_no_location_type_error (DEFAULT_KEY_LOCATION : Option String)
    (ak : Option Json) (fm jk : Option String)
    (fs : String → Option String) (jp : String → Except Err Json) :
    fileInit DEFAULT_KEY_LOCATION
        { api_key := ak, api_key_location := none, file_mode := fm, json_key := jk } fs jp
      = ([], .error (.typeError
          "argument should be a str or an os.PathLike object, not NoneType")) := rfl

/-- C3: the claimed extension-based default never takes effect.  With no
`file_mode` kwarg, a `.json` location yields effective mode `"text"` (not
`"json"`): the suffix-derived assignment is immediately overwritten by
`kwargs.get('file_mode', DEFAULT_FILE_MODE)`.  A `.txt` location yields
`"text"` only because that is the overwriting default.  And any other
extension does not warn and fall back: the warning line dereferences
`self.logger` before the base initializer assigns it, raising
`AttributeError`. -/
theorem c3_extension_default_overwritten :
    initFileMode "key.json" none = .ok "text"
  ∧ initFileMode "key.txt" none = .ok "text"
  ∧ initFileMode "key.cfg" none
      = .error (.attributeError "APIKeyFromFile object has no attribute logger") :=
  ⟨rfl, rfl, rfl⟩

/-- C4 counterexample: a file-provider configuration whose declared format
is `"xml"` (neither `"text"` nor `"json"`) is not rejected — construction
completes successfully, the key file is opened and read, and the resolved
credential is `None`: exactly the silent null the claim rules out. -/
theorem c4_counterexample :
    fileInit none { api_key_location := some "key.txt", file_mode := some "xml" } fs4 jpNone
      = ([.fileRead "key.txt", .logInfo "APIKeyFromFile Initialization complete."],
         .ok .null) := rfl

/-- C4 as amended: under a declared format that is neither `"text"` nor
`"json"`, the fetch is not stopped by any error — the file is still
opened and read, the `file_mode` property resolves to no mode, and the
fetch falls off the `if`/`elif`, silently returning `None` as the
credential. -/
theorem c4_unrecognized_mode_silent_null (fm loc contents : String) (jk : Option String)
    (fs : String → Option String) (jp : String → Except Err Json)
    (hfm1 : fm ≠ "text") (hfm2 : fm ≠ "json") (hfs : fs loc = some contents) :
    fileFetch none loc fm jk fs jp = ([.fileRead loc], .ok .null) := by
  have h1 : fileModeProp fm = none := by
    simp [fileModeProp, VALID_FILE_MODES, hfm1, hfm2]
  simp [fileFetch, isFile, pathTruthy, hfs, h1]

/-- C4 witness: the spec-level mode name `"structured"` is itself
unrecognized by the code, and yields the silent null credential. -/
theorem c4_witness :
    fileFetch none "key.txt" "structured" none fs4 jpNone
      = ([.fileRead "key.txt"], .ok .null) :=
  c4_unrecognized_mode_silent_null "structured" "key.txt" "topsecret" none fs4 jpNone
    (by decide) (by decide) rfl

/-- C6: for every existing readable key file — under `text` mode the
resolved key is the file contents with surrounding whitespace stripped;
under `json` mode with no field name the resolved key is the entire
parsed document; and with a (truthy) field name it is the value at that
field of the parsed document, with a `KeyError` when the field is
absent. -/
theorem c6_fetch_formats (loc contents : String) (jk : Option String)
    (fs : String → Option String) (jp : String → Except Err Json)
    (hfs : fs loc = some contents) :
    fileFetch none loc "text" jk fs jp = ([.fileRead loc], .ok (.str (pyStrip contents)))
  ∧ ∀ doc, jp contents = .ok doc →
      (fileFetch none loc "json" none fs jp = ([.fileRead loc], .ok doc))
    ∧ ∀ fields k, doc = .obj fields → k ≠ "" →
        (∀ v, lookupField fields k = some v →
           fileFetch none loc "json" (some k) fs jp = ([.fileRead loc], .ok v))
      ∧ (lookupField fields k = none →
           fileFetch none loc "json" (some k) fs jp
             = ([.fileRead loc], .error (.keyError k))) := by
  refine ⟨?_, fun doc hdoc => ⟨?_, fun fields k hfields hk => ⟨fun v hv => ?_, fun hnone => ?_⟩⟩⟩
  · simp [fileFetch, isFile, pathTruthy, hfs, fileModeProp, VALID_FILE_MODES]
  · simp [fileFetch, isFile, pathTruthy, hfs, fileModeProp, VALID_FILE_MODES, hdoc]
  · subst hfields
    simp [fileFetch, isFile, pathTruthy, hfs, fileModeProp, VALID_FILE_MODES, hdoc, hk, hv]
  · subst hfields
    simp [fileFetch, isFile, pathTruthy, hfs, fileModeProp, VALID_FILE_MODES, hdoc, hk, hnone]

/-- C6 witness: on a concrete file whose raw contents are `" abc "` and
parse to `{api_key: "abc", other: 1}` — text mode strips, json mode with
no field returns the whole document, `api_key` extracts the field, and a
missing field raises `KeyError`. -/
theorem c6_witness :
    fileFetch none "key.json" "text" none fs6 jp6
      = ([.fileRead "key.json"], .ok (.str "abc"))
  ∧ fileFetch none "key.json" "json" none fs6 jp6
      = ([.fileRead "key.json"], .ok (.obj [("api_key", .str "abc"), ("other", .num 1)]))
  ∧ fileFetch none "key.json" "json" (some "api_key") fs6 jp6
      = ([.fileRead "key.json"], .ok (.str "abc"))
  ∧ fileFetch none "key.json" "json" (some "missing") fs6 jp6
      = ([.fileRead "key.json"], .error (.keyError "missing")) := by
  have h := c6_fetch_formats "key.json" " abc " none fs6 jp6 rfl
  have h2 := h.2 (.obj [("api_key", .str "abc"), ("other", .num 1)]) rfl
  have h3 := h2.2 [("api_key", .str "abc"), ("other", .num 1)] "api_key" rfl (by decide)
  have h4 := h2.2 [("api_key", .str "abc"), ("other", .num 1)] "missing" rfl (by decide)
  exact ⟨h.1, h2.1, h3.1 (.str "abc") rfl, h4.2 rfl⟩

/-- C8: for every remote-provider construction whose base URL is non-empty
and fails the `validators.url` syntactic check, construction raises
`ValidationError("Invalid URL")`, and this happens before any network
request: the result is the same for every network oracle and the effect
trace is empty. -/
theorem c8_invalid_url_before_network (base_url ep : String) (kw : RemoteKwargs)
    (validator : String → Bool) (net : String → String → String → NetResult)
    (hne : base_url ≠ "") (hv : validator base_url = false) :
    remoteInit base_url ep kw validator net
      = ([], .error (.validationError "Invalid URL")) := by
  simp [remoteInit, validatedBaseUrl, hne, hv]

/-- C8 witness: base URL `"not a url"` with a rejecting validator errors
without touching the (refusing) network oracle. -/
theorem c8_witness :
    remoteInit "not a url" "get_api_key" { username := some "u", password := some "p" }
        valFalse netRefuse
      = ([], .error (.validationError "Invalid URL")) :=
  c8_invalid_url_before_network "not a url" "get_api_key"
    { username := some "u", password := some "p" } valFalse netRefuse (by decide) rfl

/-- C9: for every remote fetch whose HTTP response has a non-successful
status, construction raises `RequestException` whose detail is exactly
the response body text; only `ConnectionError` is caught by the
surrounding handler, so the error propagates out of the whole
construction. -/
theorem c9_request_failure_propagates (base_url ep u p txt : String)
    (body : Except Err Json) (validator : String → Bool)
    (net : String → String → String → NetResult)
    (hne : base_url ≠ "") (hv : validator base_url = true)
    (hu : u ≠ "") (hp : p ≠ "")
    (hnet : net (base_url ++ "/" ++ ep) u p
      = .response { ok := false, text := txt, body := body }) :
    remoteInit base_url ep { username := some u, password := some p } validator net
      = ([.httpPost (base_url ++ "/" ++ ep)], .error (.requestException txt)) := by
  simp [remoteInit, validatedBaseUrl, remoteFetch, hne, hv, hu, hp, hnet]

/-- C9 witness: a mock endpoint answering HTTP 401 with body `"bad creds"`
makes construction raise a request failure containing `"bad creds"`. -/
theorem c9_witness :
    remoteInit "http://api.example.com" "get_api_key"
        { username := some "andrew", password := some "pw" } valTrue net401
      = ([.httpPost "http://api.example.com/get_api_key"],
         .error (.requestException "bad creds")) :=
  c9_request_failure_propagates "http://api.example.com" "get_api_key" "andrew" "pw"
    "bad creds" (.error (.valueError "not json")) valTrue net401
    (by decide) rfl (by decide) (by decide) rfl

/-- C7 counterexample: the claim is false as stated.  A successful (HTTP
200) fetch whose parsed JSON body is the bare string `""` does not make
`""` the resolved key: the falsy key sends the base initializer into the
argument-less re-fetch, and construction raises `TypeError` instead of
completing. -/
theorem c7_counterexample :
    remoteInit "http://h" "e" { username := some "u", password := some "p" }
        valTrue netEmptyString
      = ([.httpPost "http://h/e"], .error (.typeError missingArgsMsg)) := rfl

/-- C7 as amended: for every successful remote fetch — if the parsed body
is a non-empty bare string, that string is the resolved key; if it is a
document whose `"api_key"` field holds a non-empty string, that string is
the resolved key and the rest of the document is discarded.  In both
cases the resolved credential is a bare string; an empty extracted value
instead aborts construction (see the counterexample). -/
theorem c7_success_shapes (base_url ep u p txt : String) (j : Json)
    (validator : String → Bool) (net : String → String → String → NetResult)
    (hne : base_url ≠ "") (hv : validator base_url = true)
    (hu : u ≠ "") (hp : p ≠ "")
    (hnet : net (base_url ++ "/" ++ ep) u p
      = .response { ok := true, text := txt, body := .ok j }) :
    (∀ s, j = .str s → s ≠ "" →
       remoteInit base_url ep { username := some u, password := some p } validator net
         = ([.httpPost (base_url ++ "/" ++ ep),
             .logInfo "RemoteAPIKey Initialization complete."], .ok (.str s)))
  ∧ ∀ fields s, j = .obj fields → lookupField fields "api_key" = some (.str s) → s ≠ "" →
       remoteInit base_url ep { username := some u, password := some p } validator net
         = ([.httpPost (base_url ++ "/" ++ ep),
             .logInfo "RemoteAPIKey Initialization complete."], .ok (.str s)) := by
  have hmsg : "RemoteAPIKey" ++ " Initialization complete."
      = "RemoteAPIKey Initialization complete." := rfl
  constructor
  · intro s hj hs
    subst hj
    have hb : (s == "") = false := beq_eq_false_iff_ne.mpr hs
    simp [remoteInit, validatedBaseUrl, remoteFetch, baseInit, Json.isTruthy,
      hne, hv, hu, hp, hnet, hb, hmsg]
  · intro fields s hj hl hs
    subst hj
    have hb : (s == "") = false := beq_eq_false_iff_ne.mpr hs
    simp [remoteInit, validatedBaseUrl, remoteFetch, baseInit, Json.isTruthy,
      hne, hv, hu, hp, hnet, hl, hb, hmsg]

/-- C7 witness: a mock endpoint answering HTTP 200 with
`{api_key: "xyz", ttl: 60}` resolves the key `"xyz"` and discards the
rest of the document. -/
theorem c7_witness :
    remoteInit "http://h2" "e2" { username := some "u", password := some "p" }
        valTrue netDoc
      = ([.httpPost "http://h2/e2", .logInfo "RemoteAPIKey Initialization complete."],
         .ok (.str "xyz")) :=
  (c7_success_shapes "http://h2" "e2" "u" "p" "resp"
      (.obj [("api_key", .str "xyz"), ("ttl", .num 60)]) valTrue netDoc
      (by decide) rfl (by decide) (by decide) rfl).2
    [("api_key", .str "xyz"), ("ttl", .num 60)] "xyz" rfl rfl (by decide)

/-- C10: in a direct construction of the remote provider with a valid base
URL — if username or password is absent (or empty), no network request is
made, the pre-set key is `None`, and the base initializer re-invokes
`_fetch_api_key` without its required arguments, raising `TypeError`; if
both are supplied but the successful response is a document with no
`"api_key"` field, `.get` yields `None` and the same argument-less
re-fetch raises.  In both cases construction never completes with a null
resolved credential. -/
theorem c10_falsy_key_reinvokes_fetch (base_url ep : String)
    (username password : Option String) (validator : String → Bool)
    (net : String → String → String → NetResult)
    (hne : base_url ≠ "") (hv : validator base_url = true) :
    ((username.getD "" = "" ∨ password.getD "" = "") →
       remoteInit base_url ep { username := username, password := password } validator net
         = ([], .error (.typeError missingArgsMsg)))
  ∧ ∀ u p fields txt, username = some u → password = some p → u ≠ "" → p ≠ "" →
      net (base_url ++ "/" ++ ep) u p
        = .response { ok := true, text := txt, body := .ok (.obj fields) } →
      lookupField fields "api_key" = none →
      remoteInit base_url ep { username := username, password := password } validator net
        = ([.httpPost (base_url ++ "/" ++ ep)], .error (.typeError missingArgsMsg)) := by
  constructor
  · intro hfalsy
    simp [remoteInit, validatedBaseUrl, baseInit, remoteFetchMissingArgs,
      Json.isTruthy, hne, hv, hfalsy]
  · intro u p fields txt h1 h2 hu hp hnet hl
    subst h1; subst h2
    simp [remoteInit, validatedBaseUrl, remoteFetch, baseInit, remoteFetchMissingArgs,
      Json.isTruthy, hne, hv, hu, hp, hnet, hl]

/-- C10 witness: with a missing username construction errors without any
network effect, and with a document lacking `"api_key"` it errors after
the single POST — never completing with a null key. -/
theorem c10_witness :
    remoteInit "http://h3" "e3" { username := none, password := some "p" }
        valTrue netNoField
      = ([], .error (.typeError missingArgsMsg))
  ∧ remoteInit "http://h3" "e3" { username := some "u", password := some "p" }
        valTrue netNoField
      = ([.httpPost "http://h3/e3"], .error (.typeError missingArgsMsg)) :=
  ⟨(c10_falsy_key_reinvokes_fetch "http://h3" "e3" none (some "p") valTrue netNoField
      (by decide) rfl).1 (Or.inl rfl),
   (c10_falsy_key_reinvokes_fetch "http://h3" "e3" (some "u") (some "p") valTrue netNoField
      (by decide) rfl).2 "u" "p" [("token", .str "t")] "resp" rfl rfl
     (by decide) (by decide) rfl rfl⟩

end ApiKeyAJM
